import Mathlib

/-!
Verification of the hello-world-oauth-mcp OAuth client and server.

A shallow embedding, in Lean 4, of the security-relevant logic of the
`seriousben/hello-world-oauth-mcp` repository:

* `src/client/client.ts` — `AuthenticatedMCPClient.authenticateAndConnect`:
  OAuth metadata discovery, dynamic client registration, PKCE pair
  generation, the one-shot local callback listener, and the
  authorization-code / token exchange;
* `src/server/index.ts` — the FastMCP server's `authenticate` hook and the
  Mastra variant's `/api/mcp/*` middleware: bearer-token extraction, JWT
  header decoding, JWKS key resolution, and signature/issuer verification.

Machine integers are modelled as `Nat` with explicit `% 2 ^ 32` reductions;
byte strings are `List Nat` (each entry `< 256`); fallible steps return
`Except`; the network is an explicit environment of pre-determined
responses, so that every definition is executable.

The SHA-256 function used by the client to derive the PKCE challenge
(`crypto.createHash("sha256")`) is embedded concretely, per FIPS 180-4,
with the round constants computed from their defining property (the first
32 bits of the fractional parts of the cube roots of the first 64 primes)
rather than transcribed.
-/

namespace OAuthMCP

/-! ## 32-bit arithmetic over `Nat` -/

/-- Reduce to a 32-bit word. -/
def w32 (n : Nat) : Nat := n % 4294967296

/-- Right-rotation of a 32-bit word by `k` positions. -/
def rotr (k x : Nat) : Nat := w32 (x / 2 ^ k + x % 2 ^ k * 2 ^ (32 - k))

/-- Logical right shift. -/
def shr (k x : Nat) : Nat := x / 2 ^ k

/-! ## SHA-256 (FIPS 180-4), used by the client for the PKCE challenge -/

/-- The choice function `Ch(x,y,z) = (x ∧ y) ⊕ (¬x ∧ z)` on 32-bit words. -/
def ch (x y z : Nat) : Nat := (x &&& y) ^^^ ((x ^^^ 4294967295) &&& z)

/-- The majority function `Maj(x,y,z) = (x ∧ y) ⊕ (x ∧ z) ⊕ (y ∧ z)`. -/
def maj (x y z : Nat) : Nat := (x &&& y) ^^^ (x &&& z) ^^^ (y &&& z)

/-- Upper-case sigma-0. -/
def bsig0 (x : Nat) : Nat := rotr 2 x ^^^ rotr 13 x ^^^ rotr 22 x

/-- Upper-case sigma-1. -/
def bsig1 (x : Nat) : Nat := rotr 6 x ^^^ rotr 11 x ^^^ rotr 25 x

/-- Lower-case sigma-0. -/
def ssig0 (x : Nat) : Nat := rotr 7 x ^^^ rotr 18 x ^^^ shr 3 x

/-- Lower-case sigma-1. -/
def ssig1 (x : Nat) : Nat := rotr 17 x ^^^ rotr 19 x ^^^ shr 10 x

/-- Binary search for the integer cube root (largest `r` with `r ^ 3 ≤ n`),
with explicit fuel; `lo` always satisfies `lo ^ 3 ≤ n` and `hi ^ 3 > n`. -/
def cbrtGo (n : Nat) : Nat → Nat → Nat → Nat
  | 0, lo, _ => lo
  | fuel + 1, lo, hi =>
    if hi ≤ lo + 1 then lo
    else
      let m := (lo + hi) / 2
      if m * m * m ≤ n then cbrtGo n fuel m hi else cbrtGo n fuel lo m

/-- Integer cube root. 200 halving steps cover every operand used here. -/
def icbrt (n : Nat) : Nat := cbrtGo n 200 0 (n + 1)

/-- The first 64 primes, sources of the SHA-256 round constants. -/
def primes64 : List Nat :=
  [2, 3, 5, 7, 11, 13, 17, 19, 23, 29, 31, 37, 41, 43, 47, 53,
   59, 61, 67, 71, 73, 79, 83, 89, 97, 101, 103, 107, 109, 113, 127, 131,
   137, 139, 149, 151, 157, 163, 167, 173, 179, 181, 191, 193, 197, 199, 211, 223,
   227, 229, 233, 239, 241, 251, 257, 263, 269, 271, 277, 281, 283, 293, 307, 311]

/-- Round constant: the first 32 bits of the fractional part of the cube
root of a prime, i.e. `⌊p^(1/3) · 2^32⌋ mod 2^32`. -/
def kOf (p : Nat) : Nat := icbrt (p * 2 ^ 96) % 2 ^ 32

/-- The 64 SHA-256 round constants. -/
def sha256K : List Nat := primes64.map kOf

/-- Initial hash value: first 32 fractional bits of the square roots of the
first 8 primes. -/
def sha256H0 : List Nat :=
  (primes64.take 8).map (fun p => Nat.sqrt (p * 2 ^ 64) % 2 ^ 32)

/-- Big-endian 64-bit length field, as 8 bytes. -/
def lenBytes64 (n : Nat) : List Nat :=
  (List.range 8).map (fun i => n / 2 ^ (8 * (7 - i)) % 256)

/-- SHA-256 padding: append `0x80`, zeros to 56 mod 64 bytes, then the
64-bit big-endian bit length. -/
def sha256Pad (msg : List Nat) : List Nat :=
  let L := msg.length
  msg ++ [128] ++ List.replicate ((55 + 64 - L % 64) % 64) 0 ++ lenBytes64 (8 * L)

/-- Split a byte list into 64-byte blocks. -/
def chunks64 (l : List Nat) : List (List Nat) :=
  if _h : l = [] then [] else l.take 64 :: chunks64 (l.drop 64)
termination_by l.length
decreasing_by
  simp only [List.length_drop]
  exact Nat.sub_lt (List.length_pos.mpr _h) (by decide)

/-- Pack a 64-byte block into 16 big-endian 32-bit words. -/
def words16 : List Nat → List Nat
  | b0 :: b1 :: b2 :: b3 :: rest =>
      (b0 * 2 ^ 24 + b1 * 2 ^ 16 + b2 * 2 ^ 8 + b3) :: words16 rest
  | _ => []

/-- Extend the 16-word message schedule by `n` further words. -/
def extendW : List Nat → Nat → List Nat
  | ws, 0 => ws
  | ws, n + 1 =>
    let L := ws.length
    let nw := w32 (ssig1 (ws.getD (L - 2) 0) + ws.getD (L - 7) 0 +
      ssig0 (ws.getD (L - 15) 0) + ws.getD (L - 16) 0)
    extendW (ws ++ [nw]) n

/-- One SHA-256 round: state is `[a, b, c, d, e, f, g, h]`. -/
def sha256Round (s : List Nat) (kw : Nat × Nat) : List Nat :=
  let a := s.getD 0 0
  let b := s.getD 1 0
  let c := s.getD 2 0
  let d := s.getD 3 0
  let e := s.getD 4 0
  let f := s.getD 5 0
  let g := s.getD 6 0
  let h := s.getD 7 0
  let t1 := w32 (h + bsig1 e + ch e f g + kw.1 + kw.2)
  let t2 := w32 (bsig0 a + maj a b c)
  [w32 (t1 + t2), a, b, c, w32 (d + t1), e, f, g]

/-- Compress one 64-byte block into the running hash state. -/
def sha256Compress (H : List Nat) (block : List Nat) : List Nat :=
  let W := extendW (words16 block) 48
  let fin := (sha256K.zip W).foldl sha256Round H
  (H.zip fin).map (fun p => w32 (p.1 + p.2))

/-- Serialize a 32-bit word big-endian. -/
def wordBytesBE (w : Nat) : List Nat :=
  [w / 2 ^ 24 % 256, w / 2 ^ 16 % 256, w / 2 ^ 8 % 256, w % 256]

/-- SHA-256 of a byte list, as a 32-byte digest. -/
def sha256 (msg : List Nat) : List Nat :=
  (((chunks64 (sha256Pad msg)).foldl sha256Compress sha256H0).map wordBytesBE).flatten

/-! ## URL-safe base64 (Node `Buffer.toString("base64url")`: RFC 4648 §5,
no padding), used for both the PKCE verifier and the challenge. -/

/-- The URL-safe base64 alphabet. -/
def b64Char (n : Nat) : Char :=
  if n < 26 then Char.ofNat (65 + n)
  else if n < 52 then Char.ofNat (97 + (n - 26))
  else if n < 62 then Char.ofNat (48 + (n - 52))
  else if n = 62 then Char.ofNat 45 else Char.ofNat 95

/-- Unpadded URL-safe base64 encoding of a byte list. -/
def base64urlEncode : List Nat → List Char
  | [] => []
  | [b1] => [b64Char (b1 / 4), b64Char (b1 % 4 * 16)]
  | [b1, b2] => [b64Char (b1 / 4), b64Char (b1 % 4 * 16 + b2 / 16), b64Char (b2 % 16 * 4)]
  | b1 :: b2 :: b3 :: rest =>
      b64Char (b1 / 4) :: b64Char (b1 % 4 * 16 + b2 / 16) ::
      b64Char (b2 % 16 * 4 + b3 / 64) :: b64Char (b3 % 64) :: base64urlEncode rest

/-- URL-safe base64 as a `String`. -/
def base64url (bs : List Nat) : String := String.mk (base64urlEncode bs)

/-- The bytes of an ASCII string (`hash.update(string)` hashes its UTF-8
bytes; every string hashed here is ASCII). -/
def strBytes (s : String) : List Nat := s.data.map Char.toNat

/-- The JavaScript `s.startsWith(p)`, computed on the character lists. -/
def strStartsWith (s p : String) : Bool := s.data.take p.data.length = p.data

/-- The JavaScript `s.substring(n)` for ASCII strings, computed on the
character lists. -/
def strDrop (s : String) (n : Nat) : String := String.mk (s.data.drop n)

/-! ## Client: `AuthenticatedMCPClient.authenticateAndConnect`
(`src/client/client.ts`)

The network is an explicit environment of pre-determined responses; each
`fetch` result is a status plus the parse of its body (`none` when
`response.json()` would reject). JavaScript truthiness on strings
(`if (error)`, `if (!code)`, `if (!oauthMetadata.registration_endpoint)`)
is modelled by `strTruthy`. -/

/-- JS truthiness of a possibly-absent string: `null`/`undefined` and `""`
are falsy. -/
def strTruthy : Option String → Bool
  | none => false
  | some s => s ≠ ""

/-- An HTTP response as seen through `fetch`: status and raw body. -/
structure HttpResp where
  status : Nat
  body : String
deriving Repr, DecidableEq

/-- The `Response.ok` predicate: status in the range 200–299. -/
def respOk (r : HttpResp) : Bool := 200 ≤ r.status && r.status < 300

/-- The fields of the discovery document the client reads
(interface `OAuthMetadata`). -/
structure OAuthMetadata where
  issuer : String
  authorization_endpoint : String
  token_endpoint : String
  jwks_uri : String
  registration_endpoint : Option String
deriving Repr, DecidableEq

/-- The token-endpoint response body (interface `TokenResponse`). -/
structure TokenResponse where
  access_token : String
  token_type : String
  refresh_token : Option String
  scope : Option String
deriving Repr, DecidableEq

/-- A parsed callback URL: `url.pathname` and `url.searchParams`
(`searchParams.get k` = first value bound to `k`, else `null`). -/
structure UrlParts where
  pathname : String
  query : List (String × String)
deriving Repr, DecidableEq

/-- Lookup in the query, as `URLSearchParams.get`: first binding of the
key, or `null`. -/
def searchGet (q : List (String × String)) (k : String) : Option String :=
  (q.find? (fun p => p.1 = k)).map (fun p => p.2)

/-- A request reaching the one-shot callback listener; `url = none` models
a request object with no `req.url`. -/
structure CallbackRequest where
  url : Option UrlParts
deriving Repr, DecidableEq

/-- How the listener settles the surrounding promise: the two `reject`
sites of the `/callback` branch, or `resolve(code)`. -/
inductive CallbackErr where
  /-- the site `reject(new Error("OAuth error: " ++ error))` — the spec's
  `AuthorizationDeniedError`. -/
  | oauthError (e : String)
  /-- the site `reject(new Error("Invalid authorization callback"))` — the
  spec's `PKCEStateMismatchError`. -/
  | invalidCallback
deriving Repr, DecidableEq

/-- What one invocation of the `http.createServer` handler does. -/
structure HandlerResult where
  status : Nat
  body : String
  /-- whether this branch calls `server.close()` -/
  closes : Bool
  /-- the `resolve`/`reject` of the surrounding promise, when this branch
  settles it -/
  settled : Option (Except CallbackErr String)
deriving Repr

/-- The callback listener's request handler, translated branch by branch
from `client.ts` lines 131–170. `state` is the random state generated in
step 3 of the flow. -/
def handleCallbackRequest (state : String) (req : CallbackRequest) : HandlerResult :=
  match req.url with
  | none => { status := 400, body := "Bad Request", closes := false, settled := none }
  | some url =>
    if url.pathname = "/callback" then
      let code := searchGet url.query "code"
      let returnedState := searchGet url.query "state"
      let error := searchGet url.query "error"
      if strTruthy error then
        { status := 400
          body := "<h1>Authorization Failed</h1><p>Error: " ++ error.getD "" ++ "</p>"
          closes := true
          settled := some (.error (.oauthError (error.getD ""))) }
      else if ¬ strTruthy code ∨ returnedState ≠ some state then
        { status := 400
          body := "<h1>Authorization Failed</h1><p>Invalid callback</p>"
          closes := true
          settled := some (.error .invalidCallback) }
      else
        { status := 200
          body := "<h1>Authorization Successful!</h1><p>You can close this window.</p>"
          closes := true
          settled := some (.ok (code.getD "")) }
    else
      { status := 404, body := "Not found", closes := false, settled := none }

/-- Run the listener over the stream of requests it receives, in order,
until one settles the promise; `none` if none ever does (the flow then
blocks, there being no timeout). -/
def runCallbackServer (state : String) : List CallbackRequest → Option (Except CallbackErr String)
  | [] => none
  | r :: rest =>
    match (handleCallbackRequest state r).settled with
    | some o => some o
    | none => runCallbackServer state rest

/-- Every throw site of `authenticateAndConnect`, named after the spec's
error taxonomy; each constructor records the data of the thrown `Error`'s
message. -/
inductive FlowError where
  /-- `OAuth discovery failed: <status> <statusText>` — `DiscoveryError`. -/
  | discoveryFailed (status : Nat)
  /-- a `response.json()` rejection propagating out of the flow -/
  | jsonError
  /-- `Server does not support dynamic client registration` —
  `RegistrationUnsupportedError`. -/
  | registrationUnsupported
  /-- `Client registration failed: <status> <body>` — `RegistrationError`. -/
  | registrationFailed (status : Nat) (body : String)
  /-- `OAuth error: <error>` — `AuthorizationDeniedError`. -/
  | authorizationDenied (e : String)
  /-- `Invalid authorization callback` — `PKCEStateMismatchError`. -/
  | pkceStateMismatch
  /-- `Token exchange failed: <status> <body>` — `TokenExchangeError`. -/
  | tokenExchangeFailed (status : Nat) (body : String)
deriving Repr, DecidableEq

/-- The pre-determined environment of one run: each network interaction's
response, and the stream of requests hitting the callback listener. -/
structure ClientEnv where
  discoveryResp : HttpResp
  /-- parse of the discovery body; `none` = invalid JSON -/
  discoveryJson : Option OAuthMetadata
  registrationResp : HttpResp
  /-- the body field `registrationData.client_id`; `none` = invalid JSON -/
  registrationClientId : Option String
  callbackRequests : List CallbackRequest
  tokenResp : HttpResp
  /-- parse of the token body; `none` = invalid JSON -/
  tokenJson : Option TokenResponse
deriving Repr, DecidableEq

/-- The observable outcome of one `authenticateAndConnect` run. -/
structure FlowOutcome where
  /-- the settled outcome, `none` while the flow is still blocked waiting
  for a callback -/
  result : Option (Except FlowError Unit)
  /-- the `this.accessToken` field after the run -/
  accessToken : Option String
  /-- the `this.clientId` field after the run -/
  clientId : Option String
  /-- whether a POST to the token endpoint was ever sent -/
  tokenExchangeSent : Bool
deriving Repr

/-- PKCE verifier: `crypto.randomBytes(32).toString("base64url")`, from
the 32 random bytes the generator yields. -/
def pkceVerifier (rand : List Nat) : String := base64url rand

/-- PKCE challenge:
`crypto.createHash("sha256").update(codeVerifier).digest("base64url")`. -/
def pkceChallenge (rand : List Nat) : String :=
  base64url (sha256 (strBytes (pkceVerifier rand)))

/-- The redirect URI, built from the configured port. -/
def redirectUri (port : Nat) : String := s!"http://localhost:{port}/callback"

/-- The authorization-URL query parameters, in source order. -/
def buildAuthParams (clientId state challenge : String) (port : Nat) :
    List (String × String) :=
  [("client_id", clientId),
   ("response_type", "code"),
   ("redirect_uri", redirectUri port),
   ("scope", "mcp"),
   ("state", state),
   ("code_challenge", challenge),
   ("code_challenge_method", "S256")]

/-- The token-exchange form parameters, in source order. -/
def buildTokenParams (clientId code verifier : String) (port : Nat) :
    List (String × String) :=
  [("grant_type", "authorization_code"),
   ("client_id", clientId),
   ("code", code),
   ("redirect_uri", redirectUri port),
   ("code_verifier", verifier)]

/-- The full `authenticateAndConnect` flow, step by step. `rand32` is what
`crypto.randomBytes(32)` yielded, `state` what
`crypto.randomBytes(16).toString("hex")` yielded. -/
def authenticateAndConnect (port : Nat) (rand32 : List Nat) (state : String)
    (env : ClientEnv) : FlowOutcome :=
  -- Step 1: discovery
  if ¬ respOk env.discoveryResp then
    { result := some (.error (.discoveryFailed env.discoveryResp.status)),
      accessToken := none, clientId := none, tokenExchangeSent := false }
  else
    match env.discoveryJson with
    | none =>
      { result := some (.error .jsonError),
        accessToken := none, clientId := none, tokenExchangeSent := false }
    | some md =>
      -- Step 2: dynamic registration
      if ¬ strTruthy md.registration_endpoint then
        { result := some (.error .registrationUnsupported),
          accessToken := none, clientId := none, tokenExchangeSent := false }
      else if ¬ respOk env.registrationResp then
        { result := some (.error (.registrationFailed env.registrationResp.status
            env.registrationResp.body)),
          accessToken := none, clientId := none, tokenExchangeSent := false }
      else
        match env.registrationClientId with
        | none =>
          { result := some (.error .jsonError),
            accessToken := none, clientId := none, tokenExchangeSent := false }
        | some cid =>
          -- Steps 3–4: PKCE pair, authorization URL, callback listener
          let _authParams := buildAuthParams cid state (pkceChallenge rand32) port
          match runCallbackServer state env.callbackRequests with
          | none =>
            { result := none, accessToken := none, clientId := some cid,
              tokenExchangeSent := false }
          | some (.error (.oauthError e)) =>
            { result := some (.error (.authorizationDenied e)),
              accessToken := none, clientId := some cid, tokenExchangeSent := false }
          | some (.error .invalidCallback) =>
            { result := some (.error .pkceStateMismatch),
              accessToken := none, clientId := some cid, tokenExchangeSent := false }
          | some (.ok _code) =>
            -- Step 5: token exchange
            if ¬ respOk env.tokenResp then
              { result := some (.error (.tokenExchangeFailed env.tokenResp.status
                  env.tokenResp.body)),
                accessToken := none, clientId := some cid, tokenExchangeSent := true }
            else
              match env.tokenJson with
              | none =>
                { result := some (.error .jsonError),
                  accessToken := none, clientId := some cid, tokenExchangeSent := true }
              | some td =>
                { result := some (.ok ()),
                  accessToken := some td.access_token, clientId := some cid,
                  tokenExchangeSent := true }

/-! ## Server-side metadata discovery (`discoverOAuthMetadata`,
`src/server/index.ts` lines 17–61) and the client's one-shot discovery
(`client.ts` lines 59–69) -/

/-- The outcome of one `fetch` of a well-known document: a rejected
promise (network failure), or a response whose body parses to metadata or
not (`none` = invalid JSON, so `response.json()` rejects). -/
inductive FetchOutcome where
  | netErr (msg : String)
  | resp (status : Nat) (json : Option OAuthMetadata)
deriving Repr, DecidableEq

/-- One guarded attempt of `discoverOAuthMetadata`: the whole
try-block yields metadata only when the fetch resolved, `response.ok`
held, and the body parsed; a network error or a `json()` rejection is
caught and falls through, and a non-ok status skips the body without
raising. -/
def tryFetchMetadata : FetchOutcome → Option OAuthMetadata
  | .netErr _ => none
  | .resp status json => if 200 ≤ status ∧ status < 300 then json else none

/-- The server's `discoverOAuthMetadata`: primary
(`/.well-known/oauth-authorization-server`), then fallback
(`/.well-known/openid-configuration`), then a thrown discovery error.
The boolean records whether the fallback fetch was attempted. -/
def discoverOAuthMetadata (primary fallback : FetchOutcome) :
    Except String OAuthMetadata × Bool :=
  match tryFetchMetadata primary with
  | some m => (.ok m, false)
  | none =>
    match tryFetchMetadata fallback with
    | some m => (.ok m, true)
    | none => (.error "Could not discover OAuth metadata", true)

/-- The client's discovery (`client.ts` lines 59–69): a single fetch of
`/.well-known/oauth-authorization-server`; a non-ok status throws at once
and a network failure propagates — there is no second attempt. -/
def clientDiscoverMetadata (primary : FetchOutcome) : Except String OAuthMetadata :=
  match primary with
  | .netErr m => .error m
  | .resp status json =>
    if 200 ≤ status ∧ status < 300 then
      match json with
      | some m => .ok m
      | none => .error "invalid JSON"
    else .error "OAuth discovery failed"

/-! ## Server: bearer-token verification
(FastMCP `authenticate`, `src/server/index.ts` lines 124–192, and the
Mastra middleware, lines 354–460 of the second document)

A raw token string is represented by the decode the pipeline extracts
from it: whether `JSON.parse` of its first dot-separated segment
succeeds, the header fields, and the claims. The signature check and the
JWKS lookup are environment functions. -/

/-- The fixed signature-algorithm allow-list passed to `createVerifier`;
a constant of the source, independent of any token. -/
def ALGORITHMS : List String := ["RS256", "RS384", "RS512", "ES256", "ES384", "ES512"]

/-- A presented JWT, through the eyes of the decoding pipeline. -/
structure Token where
  /-- whether `JSON.parse(Buffer.from(token.split(".")[0], "base64url"))`
  succeeds -/
  headerParses : Bool
  /-- the header's `alg` field -/
  headerAlg : String
  /-- the header's `kid` field -/
  headerKid : Option String
  /-- the `iss` claim -/
  iss : Option String
  /-- the `sub` claim -/
  sub : String
  /-- the `aud` claim -/
  aud : String
  /-- the `client_id` claim -/
  client_id : Option String
  /-- the `scope` claim (string form) -/
  scope : Option String
  /-- the `exp` claim, seconds since the epoch -/
  exp : Option Nat
deriving Repr, DecidableEq

/-- The decoded, verified claims handed to the session
(`return {...decoded}`). -/
structure SessionData where
  iss : Option String
  sub : String
  aud : String
  client_id : Option String
  scope : Option String
  exp : Option Nat
deriving Repr, DecidableEq

/-- Project a token's claims into the session payload. -/
def claimsOf (t : Token) : SessionData :=
  ⟨t.iss, t.sub, t.aud, t.client_id, t.scope, t.exp⟩

/-- The distinct failure modes of the verification try-block, named after
the spec's error taxonomy (the source throws plain `Error`s, all mapped to
one 401 by the surrounding catch). -/
inductive VerifyFailure where
  /-- header segment fails to parse, or the thrown
  `No key ID found in JWT header` — the spec's `MalformedTokenError`. -/
  | malformedToken (msg : String)
  /-- a `getJWKS.getPublicKey` rejection — the spec's `KeyNotFoundError`
  or `KeySetFetchError`. -/
  | keyResolution (msg : String)
  /-- the token's `alg` is outside the verifier's allow-list -/
  | algorithmNotAllowed
  /-- the spec's `SignatureInvalidError` -/
  | signatureInvalid
  /-- the spec's `IssuerMismatchError` -/
  | issuerMismatch
  /-- the spec's `TokenExpiredError` -/
  | tokenExpired
deriving Repr, DecidableEq

/-- The options object the source passes to `createVerifier`. -/
structure VerifierOpts where
  allowedIss : List String
  key : String
  algorithms : List String
deriving Repr, DecidableEq

/-- Modelled from the spec: the external JWT verifier (`fast-jwt`'s
`createVerifier`, a dependency whose code is not part of this repository).
Per §4.5 of the spec it verifies the signature using only the explicit
algorithm allow-list — the algorithm named in the token header is only
matched against that list, never trusted directly — then confirms the
issuer claim exactly equals a configured allowed issuer, then checks
expiry; `sigValid` abstracts the cryptographic signature check under the
resolved key. -/
def runVerifier (sigValid : Token → String → Bool) (now : Nat)
    (opts : VerifierOpts) (tok : Token) : Except VerifyFailure SessionData :=
  if tok.headerAlg ∉ opts.algorithms then .error .algorithmNotAllowed
  else if ¬ sigValid tok opts.key then .error .signatureInvalid
  else
    match tok.iss with
    | none => .error .issuerMismatch
    | some i =>
      if i ∉ opts.allowedIss then .error .issuerMismatch
      else
        match tok.exp with
        | some e => if e ≤ now then .error .tokenExpired else .ok (claimsOf tok)
        | none => .ok (claimsOf tok)

/-- The server's fixed collaborators and configuration: the trusted
issuer (`AUTH_ISSUER`), the discovered authorization endpoint, the decode
of raw token strings, the JWKS lookup keyed by `kid`, the signature
check, and the clock. -/
structure ServerEnv where
  issuer : String
  authorizationEndpoint : String
  tokenOf : String → Token
  getPublicKey : String → Except String String
  sigValid : Token → String → Bool
  now : Nat

/-- The verification try-block shared verbatim by both server variants
(lines 147–169 and lines 384–426): decode the header, require a truthy
`kid`, resolve the key from the JWKS, verify. The boolean records whether
`getJWKS.getPublicKey` (the key-set fetch) was invoked. -/
def verifyToken (env : ServerEnv) (tok : Token) :
    Except VerifyFailure SessionData × Bool :=
  if ¬ tok.headerParses then
    (.error (.malformedToken "header"), false)
  else if ¬ strTruthy tok.headerKid then
    (.error (.malformedToken "No key ID found in JWT header"), false)
  else
    match env.getPublicKey (tok.headerKid.getD "") with
    | .error m => (.error (.keyResolution m), true)
    | .ok publicKey =>
      (runVerifier env.sigValid env.now
        { allowedIss := [env.issuer], key := publicKey, algorithms := ALGORITHMS } tok, true)

/-- A 401 response of the FastMCP `authenticate` hook: status, the three
JSON body fields, and the `WWW-Authenticate` header when set. -/
structure AuthResponse where
  status : Nat
  bodyError : String
  bodyErrorDescription : String
  bodyAuthorizationUri : String
  wwwAuthenticate : Option String
deriving Repr, DecidableEq

/-- The challenge header value both `authenticate` 401s carry. -/
def challengeHeader (authEndpoint : String) : String :=
  "Bearer realm=\"mcp\", authorization_uri=\"" ++ authEndpoint ++ "\""

/-- The 401 thrown when the `Authorization` header is absent or not of
`Bearer` form (lines 128–142). -/
def missingCredentialResp (authEndpoint : String) : AuthResponse :=
  { status := 401, bodyError := "unauthorized",
    bodyErrorDescription := "Valid bearer token required",
    bodyAuthorizationUri := authEndpoint,
    wwwAuthenticate := some (challengeHeader authEndpoint) }

/-- The 401 thrown by the catch for any verification failure
(lines 176–190). -/
def invalidCredentialResp (authEndpoint : String) : AuthResponse :=
  { status := 401, bodyError := "unauthorized",
    bodyErrorDescription := "Invalid or expired token",
    bodyAuthorizationUri := authEndpoint,
    wwwAuthenticate := some (challengeHeader authEndpoint) }

/-- The FastMCP `authenticate` hook: extract the bearer token from the
`Authorization` header (absent or empty headers are falsy; a non-`Bearer `
form takes the same branch), run the verification try-block, and map any
failure to the uniform 401. The boolean is the key-set-fetch flag of
`verifyToken`. -/
def authenticate (env : ServerEnv) (authorization : Option String) :
    Except AuthResponse SessionData × Bool :=
  match authorization with
  | none => (.error (missingCredentialResp env.authorizationEndpoint), false)
  | some h =>
    if strStartsWith h "Bearer " then
      match verifyToken env (env.tokenOf (strDrop h 7)) with
      | (.ok sd, fetched) => (.ok sd, fetched)
      | (.error _, fetched) =>
        (.error (invalidCredentialResp env.authorizationEndpoint), fetched)
    else (.error (missingCredentialResp env.authorizationEndpoint), false)

/-- A 401 response of the Mastra middleware: `c.json(body, 401)` carries
the same three JSON fields but sets no `WWW-Authenticate` header. -/
structure MwResponse where
  status : Nat
  bodyError : String
  bodyErrorDescription : String
  bodyAuthorizationUri : String
  wwwAuthenticate : Option String
deriving Repr, DecidableEq

/-- The middleware's 401 for a missing or malformed `Authorization`
header (lines 366–374). -/
def mwMissingResp (authEndpoint : String) : MwResponse :=
  { status := 401, bodyError := "unauthorized",
    bodyErrorDescription := "Valid bearer token required",
    bodyAuthorizationUri := authEndpoint, wwwAuthenticate := none }

/-- The middleware's 401 for a failed verification (lines 429–436). -/
def mwInvalidResp (authEndpoint : String) : MwResponse :=
  { status := 401, bodyError := "unauthorized",
    bodyErrorDescription := "Invalid or expired token",
    bodyAuthorizationUri := authEndpoint, wwwAuthenticate := none }

/-- The request-scoped auth data the middleware stores before calling
`next()` (lines 417–426). -/
structure AuthData where
  subject : String
  audience : String
  clientId : Option String
  scopes : Option (List String)
deriving Repr, DecidableEq

/-- Build the stored auth data from the decoded claims; a string `scope`
claim is split on spaces. -/
def authDataOf (sd : SessionData) : AuthData :=
  ⟨sd.sub, sd.aud, sd.client_id, sd.scope.map (fun s => s.splitOn " ")⟩

/-- What the middleware does with one request. -/
inductive MwOutcome where
  /-- respond directly with a 401 -/
  | respond (r : MwResponse)
  /-- call `next()` with the auth data stored in scope -/
  | proceed (user : AuthData)
  /-- call `next()` for a `/.well-known` path, skipping authentication -/
  | skipWellKnown
deriving Repr, DecidableEq

/-- The Mastra `/api/mcp/*` middleware handler. -/
def middleware (env : ServerEnv) (path : String) (authorization : Option String) :
    MwOutcome × Bool :=
  if strStartsWith path "/.well-known" then (.skipWellKnown, false)
  else
    match authorization with
    | none => (.respond (mwMissingResp env.authorizationEndpoint), false)
    | some h =>
      if strStartsWith h "Bearer " then
        match verifyToken env (env.tokenOf (strDrop h 7)) with
        | (.ok sd, fetched) => (.proceed (authDataOf sd), fetched)
        | (.error _, fetched) =>
          (.respond (mwInvalidResp env.authorizationEndpoint), fetched)
      else (.respond (mwMissingResp env.authorizationEndpoint), false)

/-! ## Concrete fixtures for witnesses and counterexamples -/

/-- A discovery document for concrete runs. -/
def mdSample : OAuthMetadata :=
  { issuer := "http://localhost:4111"
    authorization_endpoint := "http://localhost:4111/authorize"
    token_endpoint := "http://localhost:4111/token"
    jwks_uri := "http://localhost:4111/jwks.json"
    registration_endpoint := some "http://localhost:4111/register" }

/-- A token-endpoint body for concrete runs. -/
def tokenSample : TokenResponse :=
  { access_token := "AT-1", token_type := "Bearer", refresh_token := none, scope := none }

/-- A client environment whose discovery and registration steps succeed,
parameterized by what reaches the callback listener and what the token
endpoint answers. -/
def envWithCallbacks (reqs : List CallbackRequest) (tokenResp : HttpResp)
    (tokenJson : Option TokenResponse) : ClientEnv :=
  { discoveryResp := ⟨200, "{}"⟩, discoveryJson := some mdSample,
    registrationResp := ⟨201, "{}"⟩, registrationClientId := some "client-1",
    callbackRequests := reqs, tokenResp := tokenResp, tokenJson := tokenJson }

/-- A GET of `/callback` with the given query. -/
def cbReq (q : List (String × String)) : CallbackRequest := ⟨some ⟨"/callback", q⟩⟩

/-- A presented token with a valid signature but a foreign issuer. -/
def tokenBadIss : Token :=
  { headerParses := true, headerAlg := "RS256", headerKid := some "k1",
    iss := some "https://evil.example", sub := "user-1", aud := "mcp",
    client_id := none, scope := none, exp := none }

/-- A presented token whose decoded header has no `kid` field. -/
def tokenNoKid : Token :=
  { headerParses := true, headerAlg := "RS256", headerKid := none,
    iss := some "http://localhost:4111", sub := "user-1", aud := "mcp",
    client_id := none, scope := none, exp := none }

/-- A concrete server environment: trusted issuer, a JWKS that resolves
every kid, a signature check that accepts everything (so that failures
observed under it are not signature failures), and a decode that maps
every raw string to the foreign-issuer token. -/
def envServerTest : ServerEnv :=
  { issuer := "http://localhost:4111"
    authorizationEndpoint := "http://localhost:4111/authorize"
    tokenOf := fun _ => tokenBadIss
    getPublicKey := fun _ => .ok "PK"
    sigValid := fun _ _ => true
    now := 1700000000 }

/-- The flow's first two steps succeed: discovery responds ok with parsed
metadata advertising a (truthy) registration endpoint, and registration
responds ok with a parsed client id — so the run reaches the PKCE /
listening stage. -/
def ReachesCallbackStage (env : ClientEnv) : Prop :=
  respOk env.discoveryResp = true ∧
  (∃ md, env.discoveryJson = some md ∧ strTruthy md.registration_endpoint = true) ∧
  respOk env.registrationResp = true ∧
  (∃ cid, env.registrationClientId = some cid)

/-! ## General lemmas about the embedding -/

/-- Length of the unpadded URL-safe base64 encoding: four characters per
three-byte group, plus two or three for a trailing partial group. -/
theorem base64urlEncode_length (l : List Nat) :
    (base64urlEncode l).length =
      4 * (l.length / 3) + (if l.length % 3 = 0 then 0 else l.length % 3 + 1) := by
  induction l using base64urlEncode.induct with
  | case1 => simp [base64urlEncode]
  | case2 b1 => simp [base64urlEncode]
  | case3 b1 b2 => simp [base64urlEncode]
  | case4 b1 b2 b3 rest ih =>
    simp only [base64urlEncode, List.length_cons, ih]
    split_ifs <;> omega

/-- Once discovery and registration have succeeded, the run is decided by
the listener's settlement and the token-endpoint response. -/
theorem flow_after_callback (port : Nat) (rand : List Nat) (state : String)
    (env : ClientEnv) (h1 : respOk env.discoveryResp = true)
    (md : OAuthMetadata) (hmd : env.discoveryJson = some md)
    (hreg : strTruthy md.registration_endpoint = true)
    (h3 : respOk env.registrationResp = true)
    (cid : String) (hcid : env.registrationClientId = some cid) :
    authenticateAndConnect port rand state env =
      match runCallbackServer state env.callbackRequests with
      | none =>
        { result := none, accessToken := none, clientId := some cid,
          tokenExchangeSent := false }
      | some (.error (.oauthError e)) =>
        { result := some (.error (.authorizationDenied e)), accessToken := none,
          clientId := some cid, tokenExchangeSent := false }
      | some (.error .invalidCallback) =>
        { result := some (.error .pkceStateMismatch), accessToken := none,
          clientId := some cid, tokenExchangeSent := false }
      | some (.ok _) =>
        if ¬ respOk env.tokenResp then
          { result := some (.error (.tokenExchangeFailed env.tokenResp.status
              env.tokenResp.body)),
            accessToken := none, clientId := some cid, tokenExchangeSent := true }
        else
          match env.tokenJson with
          | none =>
            { result := some (.error .jsonError), accessToken := none,
              clientId := some cid, tokenExchangeSent := true }
          | some td =>
            { result := some (.ok ()), accessToken := some td.access_token,
              clientId := some cid, tokenExchangeSent := true } := by
  unfold authenticateAndConnect
  rw [hmd, hcid]
  simp only [h1, hreg, h3, Bool.not_eq_true, Bool.true_eq_false, if_neg, ite_false,
    not_true_eq_false, false_and, if_false]

/-- C1 (amended): a callback request to `/callback` carrying no truthy
`error` parameter, whose `code` is missing or empty or whose returned
`state` is not exactly the generated state, settles the listener with the
`Invalid authorization callback` rejection (the spec's
`PKCEStateMismatchError`); and any run whose listener settles that way
fails with `pkceStateMismatch`, never sends a token-exchange request, and
leaves the access token unset. -/
theorem callback_state_mismatch_rejects :
    (∀ (state : String) (url : UrlParts), url.pathname = "/callback" →
      strTruthy (searchGet url.query "error") = false →
      (strTruthy (searchGet url.query "code") = false ∨
        searchGet url.query "state" ≠ some state) →
      (handleCallbackRequest state ⟨some url⟩).settled = some (.error .invalidCallback))
    ∧ (∀ (port : Nat) (rand : List Nat) (state : String) (env : ClientEnv),
      ReachesCallbackStage env →
      runCallbackServer state env.callbackRequests = some (.error .invalidCallback) →
      (authenticateAndConnect port rand state env).result
          = some (.error .pkceStateMismatch)
      ∧ (authenticateAndConnect port rand state env).tokenExchangeSent = false
      ∧ (authenticateAndConnect port rand state env).accessToken = none) := by
  constructor
  · intro state url hpath herr hbad
    simp [handleCallbackRequest, hpath, herr]
    rw [if_pos hbad]
  · intro port rand state env hreach hcb
    obtain ⟨h1, ⟨md, hmd, hreg⟩, h3, ⟨cid, hcid⟩⟩ := hreach
    rw [flow_after_callback port rand state env h1 md hmd hreg h3 cid hcid, hcb]
    exact ⟨rfl, rfl, rfl⟩

/-- C1 (witness): the amended theorem at a concrete mismatching callback
and a concrete run. -/
theorem callback_state_mismatch_rejects_witness :
    (handleCallbackRequest "st0" (cbReq [("code", "abc")])).settled
        = some (.error .invalidCallback)
    ∧ (authenticateAndConnect 7080 [] "st0"
        (envWithCallbacks [cbReq [("code", "abc")]] ⟨200, ""⟩ none)).result
        = some (.error .pkceStateMismatch) :=
  ⟨callback_state_mismatch_rejects.1 "st0" ⟨"/callback", [("code", "abc")]⟩ rfl rfl
      (Or.inr (by decide)),
    (callback_state_mismatch_rejects.2 7080 [] "st0"
      (envWithCallbacks [cbReq [("code", "abc")]] ⟨200, ""⟩ none)
      ⟨rfl, ⟨mdSample, rfl, rfl⟩, rfl, ⟨"client-1", rfl⟩⟩ rfl).1⟩

/-- C1 (counterexample to the claim as stated): a callback whose `state`
mismatches but which also carries `error=access_denied` fails with the
`OAuth error` rejection (the spec's `AuthorizationDeniedError`), not the
`Invalid authorization callback` one — the `error` check runs first. -/
theorem c1_error_param_takes_precedence :
    (authenticateAndConnect 7080 (List.replicate 32 0) "st0"
      (envWithCallbacks [cbReq [("error", "access_denied"), ("state", "bad")]]
        ⟨200, ""⟩ none)).result
      = some (.error (.authorizationDenied "access_denied"))
    ∧ FlowError.authorizationDenied "access_denied" ≠ FlowError.pkceStateMismatch :=
  ⟨rfl, by decide⟩

/-- C8 (amended): a callback request to `/callback` carrying an `error`
parameter with a non-empty value settles the listener with the
`OAuth error` rejection (the spec's `AuthorizationDeniedError`), and any
run whose listener settles that way fails with `authorizationDenied` and
never sends a token-exchange request. -/
theorem callback_error_param_denies :
    (∀ (state : String) (url : UrlParts) (e : String), url.pathname = "/callback" →
      searchGet url.query "error" = some e → e ≠ "" →
      (handleCallbackRequest state ⟨some url⟩).settled
        = some (.error (.oauthError e)))
    ∧ (∀ (port : Nat) (rand : List Nat) (state : String) (env : ClientEnv) (e : String),
      ReachesCallbackStage env →
      runCallbackServer state env.callbackRequests = some (.error (.oauthError e)) →
      (authenticateAndConnect port rand state env).result
          = some (.error (.authorizationDenied e))
      ∧ (authenticateAndConnect port rand state env).tokenExchangeSent = false
      ∧ (authenticateAndConnect port rand state env).accessToken = none) := by
  constructor
  · intro state url e hpath herr he
    simp [handleCallbackRequest, hpath, herr, strTruthy, he]
  · intro port rand state env e hreach hcb
    obtain ⟨h1, ⟨md, hmd, hreg⟩, h3, ⟨cid, hcid⟩⟩ := hreach
    rw [flow_after_callback port rand state env h1 md hmd hreg h3 cid hcid, hcb]
    exact ⟨rfl, rfl, rfl⟩

/-- C8 (witness): the amended theorem at `error=access_denied`. -/
theorem callback_error_param_denies_witness :
    (handleCallbackRequest "st0" (cbReq [("error", "access_denied")])).settled
        = some (.error (.oauthError "access_denied"))
    ∧ (authenticateAndConnect 7080 [] "st0"
        (envWithCallbacks [cbReq [("error", "access_denied")]] ⟨200, ""⟩ none)).result
        = some (.error (.authorizationDenied "access_denied")) :=
  ⟨callback_error_param_denies.1 "st0" ⟨"/callback", [("error", "access_denied")]⟩
      "access_denied" rfl rfl (by decide),
    (callback_error_param_denies.2 7080 [] "st0"
      (envWithCallbacks [cbReq [("error", "access_denied")]] ⟨200, ""⟩ none) "access_denied"
      ⟨rfl, ⟨mdSample, rfl, rfl⟩, rfl, ⟨"client-1", rfl⟩⟩ rfl).1⟩

/-- C8 (counterexample to the claim as stated): a callback carrying the
`error` parameter with an empty value (`?error=&code=AC&state=st0`) is
treated as error-free — `if (error)` is false on `""` — so the run
succeeds and the token-exchange request IS sent. -/
theorem c8_empty_error_param_proceeds :
    (authenticateAndConnect 7080 (List.replicate 32 0) "st0"
      (envWithCallbacks [cbReq [("error", ""), ("code", "AC"), ("state", "st0")]]
        ⟨200, "{}"⟩ (some tokenSample))).tokenExchangeSent = true
    ∧ (authenticateAndConnect 7080 (List.replicate 32 0) "st0"
      (envWithCallbacks [cbReq [("error", ""), ("code", "AC"), ("state", "st0")]]
        ⟨200, "{}"⟩ (some tokenSample))).result = some (.ok ()) :=
  ⟨rfl, rfl⟩

/-- C9: whenever the run reaches a token exchange and the token endpoint
answers with a non-success status, the flow fails with
`tokenExchangeFailed` carrying the response's status and body, and the
stored access token remains unset. -/
theorem token_exchange_failure_no_token (port : Nat) (rand : List Nat)
    (state : String) (env : ClientEnv) (hreach : ReachesCallbackStage env)
    (hcb : ∃ c, runCallbackServer state env.callbackRequests = some (.ok c))
    (hbad : respOk env.tokenResp = false) :
    (authenticateAndConnect port rand state env).result
        = some (.error (.tokenExchangeFailed env.tokenResp.status env.tokenResp.body))
    ∧ (authenticateAndConnect port rand state env).accessToken = none
    ∧ (authenticateAndConnect port rand state env).tokenExchangeSent = true := by
  obtain ⟨h1, ⟨md, hmd, hreg⟩, h3, ⟨cid, hcid⟩⟩ := hreach
  obtain ⟨c, hc⟩ := hcb
  rw [flow_after_callback port rand state env h1 md hmd hreg h3 cid hcid, hc]
  simp [hbad]

/-- C9 (witness): a concrete run whose token endpoint answers 400. -/
theorem token_exchange_failure_no_token_witness :
    (authenticateAndConnect 7080 [] "st0"
      (envWithCallbacks [cbReq [("code", "AC"), ("state", "st0")]]
        ⟨400, "invalid_grant"⟩ none)).result
      = some (.error (.tokenExchangeFailed 400 "invalid_grant"))
    ∧ (authenticateAndConnect 7080 [] "st0"
      (envWithCallbacks [cbReq [("code", "AC"), ("state", "st0")]]
        ⟨400, "invalid_grant"⟩ none)).accessToken = none :=
  ⟨(token_exchange_failure_no_token 7080 [] "st0"
      (envWithCallbacks [cbReq [("code", "AC"), ("state", "st0")]] ⟨400, "invalid_grant"⟩ none)
      ⟨rfl, ⟨mdSample, rfl, rfl⟩, rfl, ⟨"client-1", rfl⟩⟩ ⟨"AC", rfl⟩ rfl).1,
   (token_exchange_failure_no_token 7080 [] "st0"
      (envWithCallbacks [cbReq [("code", "AC"), ("state", "st0")]] ⟨400, "invalid_grant"⟩ none)
      ⟨rfl, ⟨mdSample, rfl, rfl⟩, rfl, ⟨"client-1", rfl⟩⟩ ⟨"AC", rfl⟩ rfl).2.1⟩

/-- C10: the one-shot listener answers 404 and keeps listening (does not
close, does not settle) on every request whose path is not `/callback`;
it closes exactly when it settles; it closes only on a request to
`/callback`; every `/callback` request, whatever its outcome, closes it;
and a non-`/callback` request leaves the stream's settlement unchanged. -/
theorem callback_listener_one_shot :
    (∀ (state : String) (req : CallbackRequest) (url : UrlParts),
      req.url = some url → url.pathname ≠ "/callback" →
      handleCallbackRequest state req
        = { status := 404, body := "Not found", closes := false, settled := none })
    ∧ (∀ (state : String) (req : CallbackRequest),
      (handleCallbackRequest state req).closes
        = (handleCallbackRequest state req).settled.isSome)
    ∧ (∀ (state : String) (req : CallbackRequest),
      (handleCallbackRequest state req).closes = true →
      ∃ url, req.url = some url ∧ url.pathname = "/callback")
    ∧ (∀ (state : String) (url : UrlParts), url.pathname = "/callback" →
      (handleCallbackRequest state ⟨some url⟩).closes = true)
    ∧ (∀ (state : String) (req : CallbackRequest) (rest : List CallbackRequest)
        (url : UrlParts), req.url = some url → url.pathname ≠ "/callback" →
      runCallbackServer state (req :: rest) = runCallbackServer state rest) := by
  refine ⟨?_, ?_, ?_, ?_, ?_⟩
  · intro state req url hu hp
    obtain ⟨u⟩ := req
    cases hu
    simp [handleCallbackRequest, hp]
  · intro state req
    obtain ⟨u⟩ := req
    cases u with
    | none => rfl
    | some url =>
      by_cases hp : url.pathname = "/callback"
      · by_cases he : strTruthy (searchGet url.query "error") = true
        · simp [handleCallbackRequest, hp, he]
        · by_cases hc : strTruthy (searchGet url.query "code") = false ∨
              ¬searchGet url.query "state" = some state
          · simp only [handleCallbackRequest, hp, if_pos rfl]
            simp [he]
            rw [if_pos hc]
            rfl
          · simp only [handleCallbackRequest, hp, if_pos rfl]
            simp [he]
            rw [if_neg hc]
            rfl
      · simp [handleCallbackRequest, hp]
  · intro state req hclose
    obtain ⟨u⟩ := req
    cases u with
    | none => simp [handleCallbackRequest] at hclose
    | some url =>
      by_cases hp : url.pathname = "/callback"
      · exact ⟨url, rfl, hp⟩
      · simp [handleCallbackRequest, hp] at hclose
  · intro state url hp
    by_cases he : strTruthy (searchGet url.query "error") = true
    · simp [handleCallbackRequest, hp, he]
    · by_cases hc : strTruthy (searchGet url.query "code") = false ∨
          ¬searchGet url.query "state" = some state
      · simp [handleCallbackRequest, hp, he]
        rw [if_pos hc]
      · simp [handleCallbackRequest, hp, he]
        rw [if_neg hc]
  · intro state req rest url hu hp
    obtain ⟨u⟩ := req
    cases hu
    simp [runCallbackServer, handleCallbackRequest, hp]

/-- C10 (witness): a request for `/favicon.ico` gets a 404, leaves the
listener open, and leaves a following `/callback` request to settle the
flow. -/
theorem callback_listener_one_shot_witness :
    handleCallbackRequest "st0" ⟨some ⟨"/favicon.ico", []⟩⟩
        = { status := 404, body := "Not found", closes := false, settled := none }
    ∧ runCallbackServer "st0" [⟨some ⟨"/favicon.ico", []⟩⟩,
        cbReq [("code", "AC"), ("state", "st0")]]
        = runCallbackServer "st0" [cbReq [("code", "AC"), ("state", "st0")]]
    ∧ (handleCallbackRequest "st0" (cbReq [("code", "AC"), ("state", "st0")])).closes
        = true :=
  ⟨callback_listener_one_shot.1 "st0" ⟨some ⟨"/favicon.ico", []⟩⟩ ⟨"/favicon.ico", []⟩
      rfl (by decide),
   callback_listener_one_shot.2.2.2.2 "st0" ⟨some ⟨"/favicon.ico", []⟩⟩ _
      ⟨"/favicon.ico", []⟩ rfl (by decide),
   callback_listener_one_shot.2.2.2.1 "st0" ⟨"/callback", [("code", "AC"), ("state", "st0")]⟩
      rfl⟩

/-- C2: for the 32 random bytes yielded by the generator, the verifier is
their URL-safe base64 encoding (a 43-character string), the
`code_challenge` placed in the authorization parameters is exactly the
URL-safe base64 encoding of the SHA-256 digest of the verifier string, and
the `code_challenge_method` parameter is `S256`. -/
theorem pkce_challenge_is_sha256_of_verifier (rand : List Nat)
    (hlen : rand.length = 32) (clientId state : String) (port : Nat) :
    pkceVerifier rand = base64url rand
    ∧ (pkceVerifier rand).length = 43
    ∧ searchGet (buildAuthParams clientId state (pkceChallenge rand) port)
        "code_challenge"
        = some (base64url (sha256 (strBytes (pkceVerifier rand))))
    ∧ searchGet (buildAuthParams clientId state (pkceChallenge rand) port)
        "code_challenge_method" = some "S256" := by
  refine ⟨rfl, ?_, rfl, rfl⟩
  have hmk : (pkceVerifier rand).length = (base64urlEncode rand).length := rfl
  rw [hmk, base64urlEncode_length, hlen]
  decide

/-- C2 (witness): the theorem at the all-zero 32-byte input. -/
theorem pkce_challenge_is_sha256_of_verifier_witness :
    pkceVerifier (List.replicate 32 0) = base64url (List.replicate 32 0)
    ∧ (pkceVerifier (List.replicate 32 0)).length = 43
    ∧ searchGet (buildAuthParams "client-1" "st0"
        (pkceChallenge (List.replicate 32 0)) 7080) "code_challenge"
        = some (base64url (sha256 (strBytes (pkceVerifier (List.replicate 32 0)))))
    ∧ searchGet (buildAuthParams "client-1" "st0"
        (pkceChallenge (List.replicate 32 0)) 7080) "code_challenge_method"
        = some "S256" :=
  pkce_challenge_is_sha256_of_verifier (List.replicate 32 0) (by simp) "client-1" "st0" 7080

/-- Acceptance by the modelled verifier requires the token's algorithm to
be in the options' allow-list. -/
theorem runVerifier_ok_alg (sv : Token → String → Bool) (now : Nat)
    (opts : VerifierOpts) (tok : Token) (sd : SessionData)
    (h : runVerifier sv now opts tok = .ok sd) :
    tok.headerAlg ∈ opts.algorithms := by
  by_cases hm : tok.headerAlg ∈ opts.algorithms
  · exact hm
  · simp [runVerifier, hm] at h

/-- With an allowed algorithm and a valid signature, an issuer claim that
is absent or outside the allowed issuers fails with `issuerMismatch`. -/
theorem runVerifier_issuer_mismatch (sv : Token → String → Bool) (now : Nat)
    (opts : VerifierOpts) (tok : Token)
    (ha : tok.headerAlg ∈ opts.algorithms) (hs : sv tok opts.key = true)
    (hi : ∀ i, tok.iss = some i → i ∉ opts.allowedIss) :
    runVerifier sv now opts tok = .error .issuerMismatch := by
  unfold runVerifier
  rw [if_neg (by simp [ha]), if_neg (by simp [hs])]
  cases hiss : tok.iss with
  | none => rfl
  | some i => exact if_pos (hi i hiss)

/-- C3: the verification pipeline accepts a token only if its header's
`alg` lies in the fixed allow-list `ALGORITHMS` (the list passed to
`createVerifier` is a constant of the source, never derived from the
token); and any token whose `iss` claim is not exactly the configured
trusted issuer fails with `issuerMismatch` even when its signature is
valid. -/
theorem verifier_allowlist_and_issuer :
    (∀ (env : ServerEnv) (tok : Token) (sd : SessionData),
      (verifyToken env tok).1 = .ok sd → tok.headerAlg ∈ ALGORITHMS)
    ∧ (∀ (env : ServerEnv) (tok : Token) (publicKey : String),
      tok.headerParses = true →
      strTruthy tok.headerKid = true →
      env.getPublicKey (tok.headerKid.getD "") = .ok publicKey →
      tok.headerAlg ∈ ALGORITHMS →
      env.sigValid tok publicKey = true →
      tok.iss ≠ some env.issuer →
      (verifyToken env tok).1 = .error .issuerMismatch) := by
  constructor
  · intro env tok sd h
    by_cases hp : tok.headerParses = true
    · by_cases hk : strTruthy tok.headerKid = true
      · cases hg : env.getPublicKey (tok.headerKid.getD "") with
        | error m => simp [verifyToken, hp, hk, hg] at h
        | ok pk =>
          simp [verifyToken, hp, hk, hg] at h
          exact runVerifier_ok_alg _ _ _ _ _ h
      · simp [verifyToken, hp, hk] at h
    · simp [verifyToken, hp] at h
  · intro env tok publicKey hp hk hg ha hs hi
    have h1 : (verifyToken env tok).1 = runVerifier env.sigValid env.now
        { allowedIss := [env.issuer], key := publicKey, algorithms := ALGORITHMS } tok := by
      simp [verifyToken, hp, hk, hg]
    rw [h1]
    refine runVerifier_issuer_mismatch _ _ _ _ ha hs ?_
    intro i he hmem
    simp only [List.mem_singleton] at hmem
    exact hi (by rw [he, hmem])

/-- C3 (witness): a token with an allowed algorithm, a signature the
environment accepts, and a foreign issuer is rejected with
`issuerMismatch`. -/
theorem verifier_allowlist_and_issuer_witness :
    (verifyToken envServerTest tokenBadIss).1 = .error .issuerMismatch :=
  verifier_allowlist_and_issuer.2 envServerTest tokenBadIss "PK" rfl rfl rfl
    (by decide) rfl (by decide)

/-- C4: a token whose decoded header has no `kid` field fails with the
malformed-token error thrown as `No key ID found in JWT header`, and the
key-set fetch (`getJWKS.getPublicKey`) is never invoked for it. -/
theorem missing_kid_no_jwks_fetch (env : ServerEnv) (tok : Token)
    (hp : tok.headerParses = true) (hk : tok.headerKid = none) :
    verifyToken env tok
      = (.error (.malformedToken "No key ID found in JWT header"), false) := by
  simp [verifyToken, hp, hk, strTruthy]

/-- C4 (witness): the theorem at a concrete kid-less token. -/
theorem missing_kid_no_jwks_fetch_witness :
    verifyToken envServerTest tokenNoKid
      = (.error (.malformedToken "No key ID found in JWT header"), false) :=
  missing_kid_no_jwks_fetch envServerTest tokenNoKid rfl rfl

/-- C5 (counterexample to the claim as stated): in both server variants —
the FastMCP `authenticate` hook and the Mastra middleware — the
missing-credential 401 and the invalid-credential 401 carry the SAME
`error` code (`"unauthorized"`) in their JSON bodies; the two cases are
not distinguished by error code. -/
theorem c5_same_error_code_both_cases :
    (authenticate envServerTest none).1
        = .error (missingCredentialResp envServerTest.authorizationEndpoint)
    ∧ (authenticate envServerTest (some "Bearer bad")).1
        = .error (invalidCredentialResp envServerTest.authorizationEndpoint)
    ∧ (missingCredentialResp envServerTest.authorizationEndpoint).bodyError
        = (invalidCredentialResp envServerTest.authorizationEndpoint).bodyError
    ∧ (middleware envServerTest "/api/mcp/hello-world-mcp-server/mcp" none).1
        = .respond (mwMissingResp envServerTest.authorizationEndpoint)
    ∧ (middleware envServerTest "/api/mcp/hello-world-mcp-server/mcp"
        (some "Bearer bad")).1
        = .respond (mwInvalidResp envServerTest.authorizationEndpoint)
    ∧ (mwMissingResp envServerTest.authorizationEndpoint).bodyError
        = (mwInvalidResp envServerTest.authorizationEndpoint).bodyError :=
  ⟨rfl, rfl, rfl, rfl, rfl, rfl⟩

/-- C5 (amended): in both server variants, a missing or non-`Bearer`
`Authorization` header yields the missing-credential 401 and a failed
verification yields the invalid-credential 401; all four responses carry
the same stable `error` code `"unauthorized"`, and the two cases are
distinguished only by their `error_description` texts (`Valid bearer
token required` vs `Invalid or expired token`), identical across the two
variants. -/
theorem auth_error_code_distinction :
    (∀ env : ServerEnv, (authenticate env none).1
        = .error (missingCredentialResp env.authorizationEndpoint))
    ∧ (∀ (env : ServerEnv) (hdr : String), strStartsWith hdr "Bearer " = true →
        (verifyToken env (env.tokenOf (strDrop hdr 7))).1.isOk = false →
        (authenticate env (some hdr)).1
          = .error (invalidCredentialResp env.authorizationEndpoint))
    ∧ (∀ (env : ServerEnv) (path : String),
        strStartsWith path "/.well-known" = false →
        (middleware env path none).1
          = .respond (mwMissingResp env.authorizationEndpoint))
    ∧ (∀ (env : ServerEnv) (path hdr : String),
        strStartsWith path "/.well-known" = false →
        strStartsWith hdr "Bearer " = true →
        (verifyToken env (env.tokenOf (strDrop hdr 7))).1.isOk = false →
        (middleware env path (some hdr)).1
          = .respond (mwInvalidResp env.authorizationEndpoint))
    ∧ (∀ e : String,
        (missingCredentialResp e).bodyError = "unauthorized"
        ∧ (invalidCredentialResp e).bodyError = "unauthorized"
        ∧ (mwMissingResp e).bodyError = "unauthorized"
        ∧ (mwInvalidResp e).bodyError = "unauthorized"
        ∧ (missingCredentialResp e).bodyErrorDescription = "Valid bearer token required"
        ∧ (invalidCredentialResp e).bodyErrorDescription = "Invalid or expired token"
        ∧ (mwMissingResp e).bodyErrorDescription = "Valid bearer token required"
        ∧ (mwInvalidResp e).bodyErrorDescription = "Invalid or expired token") := by
  refine ⟨fun env => rfl, ?_, ?_, ?_,
    fun e => ⟨rfl, rfl, rfl, rfl, rfl, rfl, rfl, rfl⟩⟩
  · intro env hdr hb hfail
    cases hv : verifyToken env (env.tokenOf (strDrop hdr 7)) with
    | mk res fetched =>
      rw [hv] at hfail
      cases res with
      | ok sd => simp [Except.isOk, Except.toBool] at hfail
      | error e => simp [authenticate, hb, hv]
  · intro env path hw
    simp [middleware, hw]
  · intro env path hdr hw hb hfail
    cases hv : verifyToken env (env.tokenOf (strDrop hdr 7)) with
    | mk res fetched =>
      rw [hv] at hfail
      cases res with
      | ok sd => simp [Except.isOk, Except.toBool] at hfail
      | error e => simp [middleware, hw, hb, hv]

/-- C5 (witness): the amended theorem's invalid-credential branch of the
FastMCP hook and both middleware branches, at a concrete protected path
and a concrete header whose token fails verification. -/
theorem auth_error_code_distinction_witness :
    (authenticate envServerTest (some "Bearer bad")).1
      = .error (invalidCredentialResp envServerTest.authorizationEndpoint)
    ∧ (middleware envServerTest "/api/mcp/hello-world-mcp-server/mcp" none).1
      = .respond (mwMissingResp envServerTest.authorizationEndpoint)
    ∧ (middleware envServerTest "/api/mcp/hello-world-mcp-server/mcp"
        (some "Bearer bad")).1
      = .respond (mwInvalidResp envServerTest.authorizationEndpoint) :=
  ⟨auth_error_code_distinction.2.1 envServerTest "Bearer bad" rfl rfl,
   auth_error_code_distinction.2.2.1 envServerTest
     "/api/mcp/hello-world-mcp-server/mcp" rfl,
   auth_error_code_distinction.2.2.2.1 envServerTest
     "/api/mcp/hello-world-mcp-server/mcp" "Bearer bad" rfl rfl rfl⟩

/-- C6 (counterexample to the claim as stated): the Mastra middleware's
unauthenticated response to a protected route carries no
`WWW-Authenticate` header at all — `c.json(body, 401)` sets none. -/
theorem c6_middleware_lacks_challenge_header :
    (middleware envServerTest "/api/mcp/hello-world-mcp-server/mcp" none).1
        = .respond (mwMissingResp envServerTest.authorizationEndpoint)
    ∧ (mwMissingResp envServerTest.authorizationEndpoint).wwwAuthenticate = none
    ∧ (mwMissingResp envServerTest.authorizationEndpoint).status = 401 :=
  ⟨rfl, rfl, rfl⟩

/-- C6 (amended): every unauthenticated response of the FastMCP
`authenticate` hook is a 401 carrying the `WWW-Authenticate` challenge
naming the authorization endpoint together with the JSON body fields
`error`, `error_description`, `authorization_uri`; every unauthenticated
response of the Mastra middleware is a 401 carrying the same JSON body
fields but no `WWW-Authenticate` header. -/
theorem unauthenticated_response_shape :
    (∀ (env : ServerEnv) (auth : Option String) (r : AuthResponse),
      (authenticate env auth).1 = .error r →
      r.status = 401
      ∧ r.wwwAuthenticate = some (challengeHeader env.authorizationEndpoint)
      ∧ r.bodyError = "unauthorized"
      ∧ r.bodyAuthorizationUri = env.authorizationEndpoint)
    ∧ (∀ (env : ServerEnv) (path : String) (auth : Option String) (r : MwResponse),
      (middleware env path auth).1 = .respond r →
      r.status = 401
      ∧ r.wwwAuthenticate = none
      ∧ r.bodyError = "unauthorized"
      ∧ r.bodyAuthorizationUri = env.authorizationEndpoint) := by
  constructor
  · intro env auth r h
    cases auth with
    | none =>
      simp [authenticate] at h
      subst h
      exact ⟨rfl, rfl, rfl, rfl⟩
    | some hdr =>
      by_cases hb : strStartsWith hdr "Bearer " = true
      · cases hv : verifyToken env (env.tokenOf (strDrop hdr 7)) with
        | mk res fetched =>
          cases res with
          | ok sd => simp [authenticate, hb, hv] at h
          | error e =>
            simp [authenticate, hb, hv] at h
            subst h
            exact ⟨rfl, rfl, rfl, rfl⟩
      · simp [authenticate, hb] at h
        subst h
        exact ⟨rfl, rfl, rfl, rfl⟩
  · intro env path auth r h
    by_cases hw : strStartsWith path "/.well-known" = true
    · simp [middleware, hw] at h
    · cases auth with
      | none =>
        simp [middleware, hw] at h
        subst h
        exact ⟨rfl, rfl, rfl, rfl⟩
      | some hdr =>
        by_cases hb : strStartsWith hdr "Bearer " = true
        · cases hv : verifyToken env (env.tokenOf (strDrop hdr 7)) with
          | mk res fetched =>
            cases res with
            | ok sd => simp [middleware, hw, hb, hv] at h
            | error e =>
              simp [middleware, hw, hb, hv] at h
              subst h
              exact ⟨rfl, rfl, rfl, rfl⟩
        · simp [middleware, hw, hb] at h
          subst h
          exact ⟨rfl, rfl, rfl, rfl⟩

/-- C6 (witness): the amended theorem at the FastMCP hook's
missing-credential response. -/
theorem unauthenticated_response_shape_witness :
    (missingCredentialResp envServerTest.authorizationEndpoint).status = 401
    ∧ (missingCredentialResp envServerTest.authorizationEndpoint).wwwAuthenticate
        = some (challengeHeader envServerTest.authorizationEndpoint)
    ∧ (missingCredentialResp envServerTest.authorizationEndpoint).bodyError
        = "unauthorized"
    ∧ (missingCredentialResp envServerTest.authorizationEndpoint).bodyAuthorizationUri
        = envServerTest.authorizationEndpoint :=
  unauthenticated_response_shape.1 envServerTest none
    (missingCredentialResp envServerTest.authorizationEndpoint) rfl

/-- C7 (counterexample to the claim as stated): on the very same primary
outcome (HTTP 500), the server's discoverer falls back to the secondary
document and succeeds, while the client's discovery throws at once — the
client attempts no secondary well-known path. -/
theorem c7_client_discovery_no_fallback :
    clientDiscoverMetadata (.resp 500 (some mdSample)) = .error "OAuth discovery failed"
    ∧ (discoverOAuthMetadata (.resp 500 (some mdSample)) (.resp 200 (some mdSample))).1
        = .ok mdSample :=
  ⟨rfl, rfl⟩

/-- C7 (amended): the server's `discoverOAuthMetadata` returns the primary
document's metadata without touching the fallback when the primary attempt
fully succeeds; attempts the fallback exactly when the primary attempt
fails (network error, non-success status, or invalid JSON) and returns its
metadata on success; errors exactly when both attempts fail. The client's
discovery, by contrast, fails immediately on a non-success status of its
single fetch. -/
theorem discovery_fallback_first_success :
    (∀ (p f : FetchOutcome) (m : OAuthMetadata), tryFetchMetadata p = some m →
      discoverOAuthMetadata p f = (.ok m, false))
    ∧ (∀ (p f : FetchOutcome) (m : OAuthMetadata), tryFetchMetadata p = none →
      tryFetchMetadata f = some m → discoverOAuthMetadata p f = (.ok m, true))
    ∧ (∀ p f : FetchOutcome, tryFetchMetadata p = none → tryFetchMetadata f = none →
      discoverOAuthMetadata p f = (.error "Could not discover OAuth metadata", true))
    ∧ (∀ p f : FetchOutcome,
      (discoverOAuthMetadata p f).1.isOk = false ↔
        tryFetchMetadata p = none ∧ tryFetchMetadata f = none)
    ∧ (∀ (status : Nat) (j : Option OAuthMetadata), ¬ (200 ≤ status ∧ status < 300) →
      clientDiscoverMetadata (.resp status j) = .error "OAuth discovery failed") := by
  refine ⟨?_, ?_, ?_, ?_, ?_⟩
  · intro p f m hp
    simp [discoverOAuthMetadata, hp]
  · intro p f m hp hf
    simp [discoverOAuthMetadata, hp, hf]
  · intro p f hp hf
    simp [discoverOAuthMetadata, hp, hf]
  · intro p f
    cases hp : tryFetchMetadata p with
    | some m => simp [discoverOAuthMetadata, hp, Except.isOk, Except.toBool]
    | none =>
      cases hf : tryFetchMetadata f with
      | some m => simp [discoverOAuthMetadata, hp, hf, Except.isOk, Except.toBool]
      | none => simp [discoverOAuthMetadata, hp, hf, Except.isOk, Except.toBool]
  · intro status j hbad
    simp [clientDiscoverMetadata, hbad]

/-- C7 (witness): a network failure on the primary path followed by a
successful secondary fetch yields that document's metadata, with the
fallback attempted. -/
theorem discovery_fallback_first_success_witness :
    discoverOAuthMetadata (.netErr "connection refused") (.resp 200 (some mdSample))
      = (.ok mdSample, true) :=
  discovery_fallback_first_success.2.1 (.netErr "connection refused")
    (.resp 200 (some mdSample)) mdSample rfl rfl

end OAuthMCP
